import Mathlib

/-!
Shallow embedding of `src/script.js` (a browser 3D-print quote tool).

The script is event-driven: a file-input `change` handler parses an STL
upload, initialises a three.js scene on the first successful load,
estimates a volume from the geometry's bounding box, and
`updateCostAndEmail` turns the stored state into a cost display and a
`mailto:` link.  We model the script's mutable globals and the DOM
elements it writes as one state record `St`, and each DOM event as a
transition `stepEv : St → Ev → St`.

JavaScript numbers are modelled as exact rationals (`ℚ`); the claims
under study are about the formulas the code computes, not about binary
floating-point rounding.  Object identity of three.js objects (renderer,
camera, controls, meshes, geometries, materials) is modelled by ghost
natural-number ids allocated from a counter, so that "reused", "never
re-created" and "disposed" are expressible.
-/

set_option autoImplicit false

namespace ThreeDQuote

/-- `COST_PER_GRAM` from script.js line 6 (₹ per gram). -/
def COST_PER_GRAM : ℚ := 10

/-- `TARGET_EMAIL` from script.js line 7. -/
def TARGET_EMAIL : String := "your-print-service@example.com"

/-- A three.js `Vector3` with rational coordinates. -/
structure Vec3 where
  x : ℚ
  y : ℚ
  z : ℚ
deriving DecidableEq, Repr

/-- A three.js `Box3`: an axis-aligned box given by min and max corners.
`geometry.computeBoundingBox` stores such a box (the empty box, with
min = +∞ and max = -∞ componentwise, when the geometry has no vertices;
we simply allow arbitrary corners, a superset of what the loader can
produce). -/
structure Box3 where
  bmin : Vec3
  bmax : Vec3
deriving DecidableEq, Repr

/-- three.js `Box3.isEmpty`: true iff some max coordinate is below the
corresponding min coordinate. -/
def Box3.isEmpty (b : Box3) : Bool :=
  b.bmax.x < b.bmin.x || b.bmax.y < b.bmin.y || b.bmax.z < b.bmin.z

/-- three.js `Box3.getSize`: the zero vector for an empty box, otherwise
max - min componentwise. -/
def Box3.getSize (b : Box3) : Vec3 :=
  if b.isEmpty then ⟨0, 0, 0⟩
  else ⟨b.bmax.x - b.bmin.x, b.bmax.y - b.bmin.y, b.bmax.z - b.bmin.z⟩

/-- Ghost identity of the `THREE.Mesh` built at script.js lines 119-124,
together with the identities of its geometry and its material. -/
structure MeshObj where
  meshId : Nat
  geomId : Nat
  matId : Nat
deriving DecidableEq, Repr

/-- Semantic content of `costResultDiv.innerHTML`.  The three templates
written by the script (lines 187, 200, 211-217) are fixed markup around
the values recorded here, so we model the div structurally:
`needFile` is the "Please upload a file and select material." template,
`needMaterial` the "Please select a valid material." template, and
`quote` the cost breakdown with the interpolated numbers. `blank` is the
div's content before the script's initial `resetState()` runs. -/
inductive CostMsg where
  | blank
  | needFile
  | needMaterial
  | quote (vol : ℚ) (materialName : String) (density : ℚ) (mass : ℚ) (cost : ℚ)
deriving DecidableEq, Repr

/-- The script's mutable globals (lines 20-23) plus every DOM property it
writes. -/
structure St where
  /-- identity of `scene` (`none` = null; set once by `initThreeJS`). -/
  sceneId : Option Nat
  /-- ghost: how many times `initThreeJS` has run. -/
  initCount : Nat
  /-- identity of `renderer` (`none` = null). -/
  rendererId : Option Nat
  /-- identity of `camera` (`none` = null). -/
  cameraId : Option Nat
  /-- identity of `controls` (`none` = null). -/
  controlsId : Option Nat
  /-- `currentMesh` (`none` = null). -/
  currentMesh : Option MeshObj
  /-- ghost: mesh ids currently added to `scene`. -/
  sceneMeshes : List Nat
  /-- ghost: geometry ids on which `.dispose()` has been called. -/
  disposedGeoms : List Nat
  /-- ghost: material ids on which `.dispose()` has been called. -/
  disposedMats : List Nat
  /-- ghost: next fresh object id. -/
  nextId : Nat
  /-- `modelVolumeCm3` (line 22). -/
  modelVolumeCm3 : ℚ
  /-- `loadedFileName` (line 23). -/
  loadedFileName : String
  /-- `colorInput.value`. -/
  colorVal : String
  /-- `colorInput.disabled`. -/
  colorDisabled : Bool
  /-- `materialInput.selectedOptions[0].value`.  Modelled from the spec:
  the material `<select>` lives in the repository's HTML page, which is
  not under src/; per the spec it offers material options, each carrying
  a name and "a per-material density" in g/cm³, plus a placeholder whose
  value is the empty string. -/
  matName : String
  /-- `parseFloat(materialInput.selectedOptions[0].dataset.density)`.
  Modelled from the spec: each real option's `data-density` attribute in
  the HTML parses to a rational number.  For the placeholder option the
  attribute is absent and `parseFloat` yields NaN; since the empty name
  short-circuits the guard at line 199 before the density is compared,
  we record 0 there, which is never read in a computation. -/
  matDensity : ℚ
  /-- `materialInput.disabled`. -/
  matDisabled : Bool
  /-- `costResultDiv.innerHTML`, structurally. -/
  costResult : CostMsg
  /-- `emailLink.href` (`none` after `removeAttribute`). -/
  emailHref : Option String
  /-- whether `emailLink.classList` contains `disabled`. -/
  emailDisabled : Bool
  /-- `emailStatus.textContent`. -/
  emailStatus : String
  /-- `viewerMessage.textContent`. -/
  viewerMessage : String
  /-- `fileInfo.textContent`. -/
  fileInfo : String
deriving DecidableEq, Repr

/-- JavaScript truthiness of the `scene` variable (`!scene` is the
negation of this). -/
def St.sceneLive (s : St) : Bool := s.sceneId.isSome

/-- Uppercase hexadecimal digit, for percent-encoding. -/
def hexDigit (n : Nat) : Char :=
  if n < 10 then Char.ofNat (48 + n) else Char.ofNat (55 + n)

/-- UTF-8 bytes of a character, as used by `encodeURIComponent`. -/
def utf8Bytes (c : Char) : List Nat :=
  let n := c.toNat
  if n < 128 then [n]
  else if n < 2048 then [192 + n / 64, 128 + n % 64]
  else if n < 65536 then [224 + n / 4096, 128 + (n / 64) % 64, 128 + n % 64]
  else [240 + n / 262144, 128 + (n / 4096) % 64, 128 + (n / 64) % 64, 128 + n % 64]

/-- The characters `encodeURIComponent` leaves unescaped:
ASCII letters, digits, and `- _ . ! ~ * ' ( )`. -/
def uriUnreserved (c : Char) : Bool :=
  (('A' ≤ c && c ≤ 'Z') || ('a' ≤ c && c ≤ 'z') || ('0' ≤ c && c ≤ '9')
    || c = '-' || c = '_' || c = '.' || c = '!' || c = '~' || c = '*'
    || c = '\'' || c = '(' || c = ')')

/-- Percent-encode one byte, uppercase hex. -/
def pctByte (b : Nat) : String :=
  String.mk ['%', hexDigit (b / 16), hexDigit (b % 16)]

/-- JavaScript `encodeURIComponent`: unreserved characters pass through,
everything else is percent-encoded per UTF-8 byte. -/
def encodeURIComponent (s : String) : String :=
  s.data.foldl
    (fun acc c =>
      if uriUnreserved c then acc.push c
      else acc ++ String.join ((utf8Bytes c).map pctByte))
    ""

/-- JavaScript `Number.prototype.toFixed(2)`: the integer `n` nearest to
`x·100` (ties to the larger `n`, i.e. `⌊x·100 + 1/2⌋`), rendered with two
digits after the point. -/
def toFixed2 (x : ℚ) : String :=
  let n : ℤ := ⌊x * 100 + 1 / 2⌋
  let m : Nat := n.natAbs
  (if n < 0 then "-" else "")
    ++ toString (m / 100) ++ "."
    ++ (if m % 100 < 10 then "0" else "") ++ toString (m % 100)

/-- JavaScript's notion of whitespace for `String.prototype.trim`:
space, tab, line feed, carriage return, vertical tab, form feed,
no-break space and the BOM (the Unicode space separators a color name
could plausibly contain are covered by these). -/
def jsWhitespace (c : Char) : Bool :=
  (c = ' ' || c = '\t' || c = '\n' || c = '\r'
    || c = '\x0b' || c = '\x0c' || c = '\u00A0' || c = '\uFEFF')

/-- JavaScript `String.prototype.trim`: strip leading and trailing
whitespace. -/
def jsTrim (s : String) : String :=
  String.mk (((s.data.dropWhile jsWhitespace).reverse.dropWhile jsWhitespace).reverse)

/-- The `subject` template literal at script.js line 220. -/
def emailSubject (fileName : String) : String :=
  "3D Print Quote Request - " ++ fileName

/-- The `body` template literal at script.js lines 221-229. -/
def emailBody (fileName color materialName : String) (vol mass cost : ℚ) : String :=
  "Hello,\n\nPlease find the details for a 3D printing quote request below:\n\nFile Name: "
    ++ fileName
    ++ "\nColor: " ++ color
    ++ "\nMaterial: " ++ materialName
    ++ "\nEstimated Volume: " ++ toFixed2 vol ++ " cm³ (approx.)"
    ++ "\nEstimated Mass: " ++ toFixed2 mass ++ " g (approx.)"
    ++ "\nEstimated Cost: ₹" ++ toFixed2 cost ++ " (approx.)"
    ++ "\n\n(Remember to attach the STL file: " ++ fileName ++ ")"
    ++ "\n\nThank you."

/-- The `mailtoHref` template literal at script.js line 231. -/
def mailtoHref (fileName color materialName : String) (vol mass cost : ℚ) : String :=
  "mailto:" ++ TARGET_EMAIL
    ++ "?subject=" ++ encodeURIComponent (emailSubject fileName)
    ++ "&body=" ++ encodeURIComponent (emailBody fileName color materialName vol mass cost)

/-- `updateCostAndEmail` (script.js lines 185-236). -/
def updateCostAndEmail (s : St) : St :=
  if s.currentMesh = none ∨ s.modelVolumeCm3 ≤ 0 then
    { s with costResult := CostMsg.needFile, emailDisabled := true,
             emailHref := none, emailStatus := "" }
  else if s.matName = "" ∨ s.matDensity ≤ 0 then
    { s with costResult := CostMsg.needMaterial, emailDisabled := true,
             emailHref := none, emailStatus := "" }
  else
    let density := s.matDensity
    let color := if jsTrim s.colorVal = "" then "Not specified" else jsTrim s.colorVal
    let massGrams := s.modelVolumeCm3 * density
    let estimatedCost := massGrams * COST_PER_GRAM
    { s with
        costResult := CostMsg.quote s.modelVolumeCm3 s.matName density massGrams estimatedCost,
        emailHref := some (mailtoHref s.loadedFileName color s.matName
          s.modelVolumeCm3 massGrams estimatedCost),
        emailDisabled := false,
        emailStatus := "Ready to generate email draft." }

/-- `resetState` (script.js lines 239-268). -/
def resetState (s : St) : St :=
  let s1 :=
    match s.currentMesh with
    | some m =>
        if s.sceneLive then
          { s with sceneMeshes := s.sceneMeshes.erase m.meshId,
                   disposedGeoms := m.geomId :: s.disposedGeoms,
                   disposedMats := m.matId :: s.disposedMats,
                   currentMesh := none }
        else s
    | none => s
  { s1 with
      viewerMessage :=
        if s1.rendererId = none then "Please upload an STL file to view." else "",
      colorVal := "", matName := "", matDensity := 0,
      modelVolumeCm3 := 0, loadedFileName := "",
      costResult := CostMsg.needFile,
      emailDisabled := true, emailHref := none, emailStatus := "",
      colorDisabled := true, matDisabled := true }

/-- `initThreeJS` (script.js lines 26-64): allocates fresh scene, camera,
renderer and controls (in source order), clears the viewer container. -/
def initThreeJS (s : St) : St :=
  { s with initCount := s.initCount + 1,
           sceneId := some s.nextId,
           cameraId := some (s.nextId + 1),
           rendererId := some (s.nextId + 2),
           controlsId := some (s.nextId + 3),
           nextId := s.nextId + 4,
           viewerMessage := "" }

/-- `enableInputsAndCalc` (script.js lines 270-273). -/
def enableInputsAndCalc (s : St) : St :=
  { s with colorDisabled := false, matDisabled := false }

/-- Outcome of reading and parsing the selected file: either the reader
fails (`reader.onerror`), or `loader.parse` throws (the `catch` at line
134), or it yields a geometry whose computed bounding box is `bbox`. -/
inductive LoadOutcome where
  | readFail
  | parseFail
  | parsed (bbox : Box3)
deriving DecidableEq, Repr

/-- One DOM event the script listens to. -/
inductive Ev where
  /-- `change` on the file input with `files[0]` present: the handler at
  lines 83-150 runs, and then the reader callback with the given
  outcome.  `fsize` is `file.size` in bytes. -/
  | upload (name : String) (fsize : ℚ) (outcome : LoadOutcome)
  /-- `change` with no file selected: early return at line 86. -/
  | emptyUpload
  /-- `input` on the color field (line 276). -/
  | colorEdit (v : String)
  /-- `change` on the material select (line 277), carrying the selected
  option's value and parsed density. -/
  | materialSelect (name : String) (density : ℚ)
deriving DecidableEq, Repr

/-- The successful branch of `reader.onload` (script.js lines 97-132),
run on the state left by the handler's `resetState()` call: initialise
three.js if this is the first load, estimate the volume from the
bounding box (lines 110-116), build and add the mesh, enable the inputs
and run the initial `updateCostAndEmail()`. -/
def loadSuccess (s2 : St) (bbox : Box3) : St :=
  let s3 := if s2.sceneLive then { s2 with viewerMessage := "" } else initThreeJS s2
  let size := bbox.getSize
  let vol := size.x * size.y * size.z / 1000 * (0.4 : ℚ)
  let mesh : MeshObj := ⟨s3.nextId, s3.nextId + 1, s3.nextId + 2⟩
  let s4 := { s3 with
      modelVolumeCm3 := vol,
      currentMesh := some mesh,
      sceneMeshes := mesh.meshId :: s3.sceneMeshes,
      nextId := s3.nextId + 3 }
  updateCostAndEmail (enableInputsAndCalc s4)

/-- Lines 89-91 of the `change` handler: record the file name and show
the file info and loading message. -/
def preUpload (s : St) (name : String) (fsize : ℚ) : St :=
  { s with
      loadedFileName := name,
      fileInfo := "File: " ++ name ++ " (" ++ toFixed2 (fsize / 1024 / 1024) ++ " MB)",
      viewerMessage := "Loading model..." }

/-- The file-input `change` handler (lines 83-150) followed by the
FileReader callback for the given outcome. -/
def handleUpload (s : St) (name : String) (fsize : ℚ) (outcome : LoadOutcome) : St :=
  let s2 := resetState (preUpload s name fsize)
  match outcome with
  | LoadOutcome.readFail =>
      resetState { s2 with
        viewerMessage := "Error reading file.",
        fileInfo := "File: " ++ s2.loadedFileName ++ " - Read Error" }
  | LoadOutcome.parseFail =>
      resetState { s2 with
        viewerMessage := "Error loading STL file. Please check the file format.",
        fileInfo := "File: " ++ s2.loadedFileName ++ " - Load Error" }
  | LoadOutcome.parsed bbox => loadSuccess s2 bbox

/-- One step of the event loop. Edits to a disabled input cannot be made
by the user, so they leave the state unchanged. -/
def stepEv (s : St) (e : Ev) : St :=
  match e with
  | Ev.upload name fsize outcome => handleUpload s name fsize outcome
  | Ev.emptyUpload => s
  | Ev.colorEdit v =>
      if s.colorDisabled then s else updateCostAndEmail { s with colorVal := v }
  | Ev.materialSelect n d =>
      if s.matDisabled then s
      else updateCostAndEmail { s with matName := n, matDensity := d }

/-- The DOM as the page loads, before any script statement runs. -/
def blankDom : St :=
  { sceneId := none, initCount := 0,
    rendererId := none, cameraId := none, controlsId := none,
    currentMesh := none, sceneMeshes := [],
    disposedGeoms := [], disposedMats := [], nextId := 0,
    modelVolumeCm3 := 0, loadedFileName := "",
    colorVal := "", colorDisabled := false,
    matName := "", matDensity := 0, matDisabled := false,
    costResult := CostMsg.blank,
    emailHref := none, emailDisabled := false, emailStatus := "",
    viewerMessage := "Please upload an STL file to view.", fileInfo := "" }

/-- State after the script's top-level `resetState()` call (line 280). -/
def initialState : St := resetState blankDom

/-- States reachable by any sequence of DOM events from the initial
state. -/
inductive Reachable : St → Prop where
  | init : Reachable initialState
  | step {s : St} (e : Ev) : Reachable s → Reachable (stepEv s e)

/-- A 10 mm × 10 mm × 10 mm bounding box, as `STLLoader.parse` plus
`computeBoundingBox` would produce for a cube model. -/
def demoBox : Box3 := ⟨⟨0, 0, 0⟩, ⟨10, 10, 10⟩⟩

/-- State after uploading a 100-byte file named "model.stl" that parses
to `demoBox`, starting from the initial page. -/
def demoUpload : St :=
  stepEv initialState (Ev.upload "model.stl" 100 (LoadOutcome.parsed demoBox))

/-- ... then typing "red" into the color input. -/
def demoColored : St := stepEv demoUpload (Ev.colorEdit "red")

/-- ... then selecting a material named "PLA" whose `data-density`
parses to 1.25. -/
def demoQuote : St := stepEv demoColored (Ev.materialSelect "PLA" (5 / 4))

/-- A by-hand state with an initialised scene, a displayed mesh (ids
3/4/5), a 0.4 cm³ model, color " red " and material PLA at 1.25 g/cm³;
used to instantiate theorems about `updateCostAndEmail` and
`resetState` at a concrete input. -/
def sampleSt : St :=
  { sceneId := some 0, initCount := 1,
    cameraId := some 1, rendererId := some 2, controlsId := some 3,
    currentMesh := some ⟨4, 5, 6⟩, sceneMeshes := [4],
    disposedGeoms := [], disposedMats := [], nextId := 7,
    modelVolumeCm3 := 2 / 5, loadedFileName := "",
    colorVal := " red ", colorDisabled := false,
    matName := "PLA", matDensity := 5 / 4, matDisabled := false,
    costResult := CostMsg.needMaterial,
    emailHref := none, emailDisabled := true, emailStatus := "",
    viewerMessage := "", fileInfo := "File: model.stl (0.00 MB)" }

/-! ### The run-time invariant -/

/-- Invariant maintained by every event: the stored volume is
non-negative, a mesh implies an initialised scene, displayed quote
values are non-negative, an email href implies a loaded model with
positive volume, and `initThreeJS` has run exactly once iff the scene
exists (never more than once). -/
structure GoodSt (s : St) : Prop where
  volNonneg : 0 ≤ s.modelVolumeCm3
  meshScene : s.currentMesh.isSome = true → s.sceneLive = true
  dispOk : ∀ v n d m c, s.costResult = CostMsg.quote v n d m c → 0 ≤ v ∧ 0 ≤ m ∧ 0 ≤ c
  hrefOk : s.emailHref.isSome = true → s.currentMesh.isSome = true ∧ 0 < s.modelVolumeCm3
  initLe : s.initCount ≤ 1
  initIff : s.sceneLive = true ↔ s.initCount = 1

/-! ### Frame lemmas: which fields each operation can touch -/

/-- `updateCostAndEmail` writes only the cost div, the email link's href
and `disabled` class, and the email status text. -/
theorem updateCost_frame (s : St) : ∃ cr eh ed es,
    updateCostAndEmail s = { s with costResult := cr, emailHref := eh,
                                    emailDisabled := ed, emailStatus := es } := by
  unfold updateCostAndEmail
  split
  · exact ⟨_, _, _, _, rfl⟩
  · split
    · exact ⟨_, _, _, _, rfl⟩
    · exact ⟨_, _, _, _, rfl⟩

theorem updateCost_sceneId (s : St) : (updateCostAndEmail s).sceneId = s.sceneId := by
  obtain ⟨_, _, _, _, h⟩ := updateCost_frame s; rw [h]

theorem updateCost_initCount (s : St) : (updateCostAndEmail s).initCount = s.initCount := by
  obtain ⟨_, _, _, _, h⟩ := updateCost_frame s; rw [h]

theorem updateCost_rendererId (s : St) : (updateCostAndEmail s).rendererId = s.rendererId := by
  obtain ⟨_, _, _, _, h⟩ := updateCost_frame s; rw [h]

theorem updateCost_cameraId (s : St) : (updateCostAndEmail s).cameraId = s.cameraId := by
  obtain ⟨_, _, _, _, h⟩ := updateCost_frame s; rw [h]

theorem updateCost_controlsId (s : St) : (updateCostAndEmail s).controlsId = s.controlsId := by
  obtain ⟨_, _, _, _, h⟩ := updateCost_frame s; rw [h]

theorem updateCost_vol (s : St) : (updateCostAndEmail s).modelVolumeCm3 = s.modelVolumeCm3 := by
  obtain ⟨_, _, _, _, h⟩ := updateCost_frame s; rw [h]

theorem updateCost_mesh (s : St) : (updateCostAndEmail s).currentMesh = s.currentMesh := by
  obtain ⟨_, _, _, _, h⟩ := updateCost_frame s; rw [h]

/-- `resetState` leaves the three.js context (scene, renderer, camera,
controls), the init counter, the id counter and `fileInfo` alone. -/
theorem resetState_untouched (s : St) :
    (resetState s).sceneId = s.sceneId
    ∧ (resetState s).initCount = s.initCount
    ∧ (resetState s).rendererId = s.rendererId
    ∧ (resetState s).cameraId = s.cameraId
    ∧ (resetState s).controlsId = s.controlsId
    ∧ (resetState s).nextId = s.nextId
    ∧ (resetState s).fileInfo = s.fileInfo := by
  unfold resetState
  cases h : s.currentMesh
  · exact ⟨rfl, rfl, rfl, rfl, rfl, rfl, rfl⟩
  · by_cases hl : s.sceneLive = true
    · simp [if_pos hl]
    · simp [if_neg hl]

/-- The fields `resetState` overwrites with constants. -/
theorem resetState_cleared (s : St) :
    (resetState s).modelVolumeCm3 = 0
    ∧ (resetState s).loadedFileName = ""
    ∧ (resetState s).colorVal = ""
    ∧ (resetState s).matName = ""
    ∧ (resetState s).costResult = CostMsg.needFile
    ∧ (resetState s).emailHref = none
    ∧ (resetState s).emailDisabled = true
    ∧ (resetState s).emailStatus = ""
    ∧ (resetState s).colorDisabled = true
    ∧ (resetState s).matDisabled = true :=
  ⟨rfl, rfl, rfl, rfl, rfl, rfl, rfl, rfl, rfl, rfl⟩

/-- After `resetState`, `currentMesh` is null — provided the state
satisfies the run-time invariant that a mesh only exists once the scene
does (JavaScript's `scene && currentMesh` guard would otherwise skip the
removal). -/
theorem resetState_mesh_none (s : St)
    (h : s.currentMesh.isSome = true → s.sceneLive = true) :
    (resetState s).currentMesh = none := by
  unfold resetState
  cases hm : s.currentMesh
  · simp [hm]
  · have hl : s.sceneLive = true := h (by simp [hm])
    simp [if_pos hl]

/-- Bounding-box extents are never negative (three.js returns the zero
vector for an empty box, and max ≥ min componentwise otherwise). -/
theorem Box3.getSize_nonneg (b : Box3) :
    0 ≤ b.getSize.x ∧ 0 ≤ b.getSize.y ∧ 0 ≤ b.getSize.z := by
  unfold Box3.getSize
  split
  · exact ⟨le_refl 0, le_refl 0, le_refl 0⟩
  · next h =>
      rw [Box3.isEmpty] at h
      simp only [Bool.or_eq_true, decide_eq_true_eq, not_or] at h
      obtain ⟨⟨h1, h2⟩, h3⟩ := h
      exact ⟨sub_nonneg.mpr (le_of_not_lt h1), sub_nonneg.mpr (le_of_not_lt h2),
             sub_nonneg.mpr (le_of_not_lt h3)⟩

/-- The volume heuristic at script.js lines 114-116 never yields a
negative number. -/
theorem volEstimate_nonneg (b : Box3) :
    0 ≤ b.getSize.x * b.getSize.y * b.getSize.z / 1000 * (0.4 : ℚ) := by
  obtain ⟨hx, hy, hz⟩ := b.getSize_nonneg
  have h1 : 0 ≤ b.getSize.x * b.getSize.y * b.getSize.z :=
    mul_nonneg (mul_nonneg hx hy) hz
  have h2 : 0 ≤ b.getSize.x * b.getSize.y * b.getSize.z / 1000 :=
    div_nonneg h1 (by norm_num)
  exact mul_nonneg h2 (by norm_num)

/-- `updateCostAndEmail` preserves the invariant. -/
theorem updateCost_good (s : St) (h : GoodSt s) : GoodSt (updateCostAndEmail s) := by
  unfold updateCostAndEmail
  split
  · exact ⟨h.volNonneg, h.meshScene,
      fun v n d m c heq => CostMsg.noConfusion heq,
      fun hh => Bool.noConfusion hh, h.initLe, h.initIff⟩
  · next hcond =>
      split
      · exact ⟨h.volNonneg, h.meshScene,
          fun v n d m c heq => CostMsg.noConfusion heq,
          fun hh => Bool.noConfusion hh, h.initLe, h.initIff⟩
      · next hmat =>
          rw [not_or] at hcond hmat
          have hvol : 0 < s.modelVolumeCm3 := lt_of_not_le hcond.2
          have hden : 0 < s.matDensity := lt_of_not_le hmat.2
          have hmesh : s.currentMesh.isSome = true :=
            Option.ne_none_iff_isSome.mp hcond.1
          refine ⟨h.volNonneg, h.meshScene, ?_, ?_, h.initLe, h.initIff⟩
          · intro v n d m c heq
            injection heq with e1 e2 e3 e4 e5
            subst e1; subst e4; subst e5
            exact ⟨le_of_lt hvol,
              mul_nonneg (le_of_lt hvol) (le_of_lt hden),
              mul_nonneg (mul_nonneg (le_of_lt hvol) (le_of_lt hden))
                (by norm_num [COST_PER_GRAM])⟩
          · exact fun _ => ⟨hmesh, hvol⟩

/-- `resetState` preserves the invariant. -/
theorem resetState_good (s : St) (h : GoodSt s) : GoodSt (resetState s) := by
  have hm := resetState_mesh_none s h.meshScene
  have hu := resetState_untouched s
  have hc := resetState_cleared s
  have hlive : (resetState s).sceneLive = s.sceneLive := by
    unfold St.sceneLive; rw [hu.1]
  refine ⟨?_, ?_, ?_, ?_, ?_, ?_⟩
  · exact ge_of_eq hc.1
  · intro hh; rw [hm] at hh; exact Bool.noConfusion hh
  · intro v n d m c heq
    rw [hc.2.2.2.2.1] at heq
    exact CostMsg.noConfusion heq
  · intro hh
    rw [hc.2.2.2.2.2.1] at hh
    exact Bool.noConfusion hh
  · rw [hu.2.1]; exact h.initLe
  · rw [hlive, hu.2.1]; exact h.initIff

/-- `loadSuccess` establishes the invariant when run on a freshly reset
state (one whose email link is cleared). -/
theorem loadSuccess_good (s2 : St) (bbox : Box3) (g : GoodSt s2)
    (hhref : s2.emailHref = none) : GoodSt (loadSuccess s2 bbox) := by
  unfold loadSuccess
  by_cases hl : s2.sceneLive = true
  · rw [if_pos hl]
    refine updateCost_good _ ⟨volEstimate_nonneg bbox, fun _ => hl, g.dispOk, ?_, ?_, ?_⟩
    · intro hh
      exact Bool.noConfusion (hhref ▸ hh)
    · exact le_of_eq (g.initIff.mp hl)
    · exact iff_of_true hl (g.initIff.mp hl)
  · rw [if_neg hl]
    have hn1 : s2.initCount ≠ 1 := fun h1 => hl (g.initIff.mpr h1)
    have hle := g.initLe
    have h0 : s2.initCount = 0 := by omega
    refine updateCost_good _ ⟨volEstimate_nonneg bbox, fun _ => rfl, g.dispOk, ?_, ?_, ?_⟩
    · intro hh
      exact Bool.noConfusion (hhref ▸ hh)
    · show s2.initCount + 1 ≤ 1
      omega
    · refine iff_of_true rfl ?_
      show s2.initCount + 1 = 1
      omega

/-- The upload handler preserves the invariant, whatever the outcome. -/
theorem handleUpload_good (s : St) (name : String) (fsize : ℚ)
    (o : LoadOutcome) (h : GoodSt s) : GoodSt (handleUpload s name fsize o) := by
  unfold handleUpload
  have h1 : GoodSt (preUpload s name fsize) :=
    ⟨h.volNonneg, h.meshScene, h.dispOk, h.hrefOk, h.initLe, h.initIff⟩
  cases o
  · exact resetState_good _
      ⟨(resetState_good _ h1).volNonneg, (resetState_good _ h1).meshScene,
       (resetState_good _ h1).dispOk, (resetState_good _ h1).hrefOk,
       (resetState_good _ h1).initLe, (resetState_good _ h1).initIff⟩
  · exact resetState_good _
      ⟨(resetState_good _ h1).volNonneg, (resetState_good _ h1).meshScene,
       (resetState_good _ h1).dispOk, (resetState_good _ h1).hrefOk,
       (resetState_good _ h1).initLe, (resetState_good _ h1).initIff⟩
  · exact loadSuccess_good _ _ (resetState_good _ h1) (resetState_cleared _).2.2.2.2.2.1

/-- The invariant holds in the script's initial state. -/
theorem initialState_good : GoodSt initialState := by
  refine resetState_good blankDom ⟨?_, ?_, ?_, ?_, ?_, ?_⟩
  · exact le_refl 0
  · intro hh; exact Bool.noConfusion hh
  · intro v n d m c heq; exact CostMsg.noConfusion heq
  · intro hh; exact Bool.noConfusion hh
  · exact Nat.zero_le 1
  · exact iff_of_false (fun hh => Bool.noConfusion hh) (by decide)

/-- Every reachable state satisfies the invariant. -/
theorem reachable_good {s : St} (h : Reachable s) : GoodSt s := by
  induction h with
  | init => exact initialState_good
  | step e _ ih =>
      cases e with
      | upload n f o => exact handleUpload_good _ n f o ih
      | emptyUpload => exact ih
      | colorEdit v =>
          simp only [stepEv]
          split
          · exact ih
          · exact updateCost_good _
              ⟨ih.volNonneg, ih.meshScene, ih.dispOk, ih.hrefOk, ih.initLe, ih.initIff⟩
      | materialSelect nm d =>
          simp only [stepEv]
          split
          · exact ih
          · exact updateCost_good _
              ⟨ih.volNonneg, ih.meshScene, ih.dispOk, ih.hrefOk, ih.initLe, ih.initIff⟩

/-- `resetState` does not change whether the scene exists. -/
theorem resetState_live (s : St) : (resetState s).sceneLive = s.sceneLive := by
  unfold St.sceneLive
  rw [(resetState_untouched s).1]

/-- With no mesh present, `resetState` leaves `currentMesh` null. -/
theorem resetState_mesh_keep (s : St) (h : s.currentMesh = none) :
    (resetState s).currentMesh = none :=
  resetState_mesh_none s (fun hh => by rw [h] at hh; exact Bool.noConfusion hh)

/-- On a state whose scene already exists, a successful load touches
none of the three.js context objects and does not run `initThreeJS`. -/
theorem loadSuccess_live_core (s2 : St) (b : Box3) (hl : s2.sceneLive = true) :
    (loadSuccess s2 b).sceneId = s2.sceneId
    ∧ (loadSuccess s2 b).rendererId = s2.rendererId
    ∧ (loadSuccess s2 b).cameraId = s2.cameraId
    ∧ (loadSuccess s2 b).controlsId = s2.controlsId
    ∧ (loadSuccess s2 b).initCount = s2.initCount := by
  unfold loadSuccess
  rw [if_pos hl]
  exact ⟨updateCost_sceneId _, updateCost_rendererId _, updateCost_cameraId _,
         updateCost_controlsId _, updateCost_initCount _⟩

/-- On a state with no scene, a successful load runs `initThreeJS` once
and the scene then exists. -/
theorem loadSuccess_first (s2 : St) (b : Box3) (hl : ¬ s2.sceneLive = true) :
    (loadSuccess s2 b).initCount = s2.initCount + 1
    ∧ (loadSuccess s2 b).sceneLive = true := by
  unfold loadSuccess
  rw [if_neg hl]
  constructor
  · exact updateCost_initCount _
  · show (updateCostAndEmail _).sceneLive = true
    unfold St.sceneLive
    rw [updateCost_sceneId]
    rfl

/-- Once the scene exists, an upload (with any outcome) reuses the
existing scene, renderer, camera and controls and never re-initialises. -/
theorem handleUpload_core (s : St) (name : String) (fsize : ℚ) (o : LoadOutcome)
    (hl : s.sceneLive = true) :
    (handleUpload s name fsize o).sceneId = s.sceneId
    ∧ (handleUpload s name fsize o).rendererId = s.rendererId
    ∧ (handleUpload s name fsize o).cameraId = s.cameraId
    ∧ (handleUpload s name fsize o).controlsId = s.controlsId
    ∧ (handleUpload s name fsize o).initCount = s.initCount := by
  unfold handleUpload
  cases o
  · exact ⟨(resetState_untouched _).1.trans (resetState_untouched _).1,
      (resetState_untouched _).2.2.1.trans (resetState_untouched _).2.2.1,
      (resetState_untouched _).2.2.2.1.trans (resetState_untouched _).2.2.2.1,
      (resetState_untouched _).2.2.2.2.1.trans (resetState_untouched _).2.2.2.2.1,
      (resetState_untouched _).2.1.trans (resetState_untouched _).2.1⟩
  · exact ⟨(resetState_untouched _).1.trans (resetState_untouched _).1,
      (resetState_untouched _).2.2.1.trans (resetState_untouched _).2.2.1,
      (resetState_untouched _).2.2.2.1.trans (resetState_untouched _).2.2.2.1,
      (resetState_untouched _).2.2.2.2.1.trans (resetState_untouched _).2.2.2.2.1,
      (resetState_untouched _).2.1.trans (resetState_untouched _).2.1⟩
  · next b =>
      have hl2 : (resetState (preUpload s name fsize)).sceneLive = true :=
        (resetState_live _).trans hl
      exact ⟨(loadSuccess_live_core _ b hl2).1.trans (resetState_untouched _).1,
        (loadSuccess_live_core _ b hl2).2.1.trans (resetState_untouched _).2.2.1,
        (loadSuccess_live_core _ b hl2).2.2.1.trans (resetState_untouched _).2.2.2.1,
        (loadSuccess_live_core _ b hl2).2.2.2.1.trans (resetState_untouched _).2.2.2.2.1,
        (loadSuccess_live_core _ b hl2).2.2.2.2.trans (resetState_untouched _).2.1⟩

/-- Before the scene exists, a successful upload bumps the `initThreeJS`
invocation count by exactly one and the scene then exists. -/
theorem handleUpload_first (s : St) (name : String) (fsize : ℚ) (b : Box3)
    (hl : ¬ s.sceneLive = true) :
    (handleUpload s name fsize (LoadOutcome.parsed b)).initCount = s.initCount + 1
    ∧ (handleUpload s name fsize (LoadOutcome.parsed b)).sceneLive = true := by
  unfold handleUpload
  have hl2 : ¬ (resetState (preUpload s name fsize)).sceneLive = true :=
    fun hh => hl ((resetState_live (preUpload s name fsize)).symm.trans hh)
  constructor
  · exact (loadSuccess_first _ b hl2).1.trans (congrArg (· + 1) (resetState_untouched _).2.1)
  · exact (loadSuccess_first _ b hl2).2

/-- Once the scene exists, no event whatsoever changes the identity of
the scene, renderer, camera or controls, nor the `initThreeJS` count. -/
theorem step_core (s : St) (hl : s.sceneLive = true) (e : Ev) :
    (stepEv s e).sceneId = s.sceneId
    ∧ (stepEv s e).rendererId = s.rendererId
    ∧ (stepEv s e).cameraId = s.cameraId
    ∧ (stepEv s e).controlsId = s.controlsId
    ∧ (stepEv s e).initCount = s.initCount := by
  cases e with
  | upload n f o => exact handleUpload_core s n f o hl
  | emptyUpload => exact ⟨rfl, rfl, rfl, rfl, rfl⟩
  | colorEdit v =>
      simp only [stepEv]
      split
      · exact ⟨rfl, rfl, rfl, rfl, rfl⟩
      · exact ⟨updateCost_sceneId _, updateCost_rendererId _, updateCost_cameraId _,
               updateCost_controlsId _, updateCost_initCount _⟩
  | materialSelect nm d =>
      simp only [stepEv]
      split
      · exact ⟨rfl, rfl, rfl, rfl, rfl⟩
      · exact ⟨updateCost_sceneId _, updateCost_rendererId _, updateCost_cameraId _,
               updateCost_controlsId _, updateCost_initCount _⟩

/-- C3: in every state reachable by any sequence of file uploads, color
edits and material selections, the stored volume is non-negative, and so
are the volume, mass and cost displayed in the cost panel. -/
theorem claim3_nonneg (s : St) (h : Reachable s) :
    0 ≤ s.modelVolumeCm3
    ∧ ∀ v n d m c, s.costResult = CostMsg.quote v n d m c → 0 ≤ v ∧ 0 ≤ m ∧ 0 ≤ c :=
  ⟨(reachable_good h).volNonneg, (reachable_good h).dispOk⟩

theorem claim3_witness : 0 ≤ initialState.modelVolumeCm3 :=
  (claim3_nonneg initialState Reachable.init).1

/-- C4: a malformed upload (one on which `loader.parse` throws) shows an
error message (the file-info line reads "File:  - Load Error") and
resets everything else: no volume, mesh, cost display, email href or
email status survives the failure. -/
theorem claim4_parse_error_resets (s : St) (h : Reachable s) (name : String) (fsize : ℚ) :
    (stepEv s (Ev.upload name fsize LoadOutcome.parseFail)).fileInfo = "File:  - Load Error"
    ∧ (stepEv s (Ev.upload name fsize LoadOutcome.parseFail)).modelVolumeCm3 = 0
    ∧ (stepEv s (Ev.upload name fsize LoadOutcome.parseFail)).loadedFileName = ""
    ∧ (stepEv s (Ev.upload name fsize LoadOutcome.parseFail)).currentMesh = none
    ∧ (stepEv s (Ev.upload name fsize LoadOutcome.parseFail)).costResult = CostMsg.needFile
    ∧ (stepEv s (Ev.upload name fsize LoadOutcome.parseFail)).emailHref = none
    ∧ (stepEv s (Ev.upload name fsize LoadOutcome.parseFail)).emailDisabled = true
    ∧ (stepEv s (Ev.upload name fsize LoadOutcome.parseFail)).emailStatus = "" := by
  have g : GoodSt s := reachable_good h
  have g1 : GoodSt (preUpload s name fsize) :=
    ⟨g.volNonneg, g.meshScene, g.dispOk, g.hrefOk, g.initLe, g.initIff⟩
  simp only [stepEv, handleUpload]
  refine ⟨?_, (resetState_cleared _).1, (resetState_cleared _).2.1,
    resetState_mesh_keep _ (resetState_mesh_none _ g1.meshScene),
    (resetState_cleared _).2.2.2.2.1,
    (resetState_cleared _).2.2.2.2.2.1,
    (resetState_cleared _).2.2.2.2.2.2.1,
    (resetState_cleared _).2.2.2.2.2.2.2.1⟩
  rw [(resetState_untouched _).2.2.2.2.2.2, (resetState_cleared _).2.1]
  rfl


/-- C1: for every uploaded file that the STL parser successfully parses,
the stored estimated volume in cm³ equals the product of the bounding
box extents along x, y and z (in mm), divided by 1000, times the fixed
factor 0.4. -/
theorem claim1_volume_formula (s : St) (name : String) (fsize : ℚ) (b : Box3) :
    (stepEv s (Ev.upload name fsize (LoadOutcome.parsed b))).modelVolumeCm3
      = b.getSize.x * b.getSize.y * b.getSize.z / 1000 * (0.4 : ℚ) := by
  simp only [stepEv, handleUpload, loadSuccess]
  rw [updateCost_vol]
  rfl

/-- C2: for a loaded model with a selected material (non-empty name,
positive density), the estimated mass in grams is the stored volume in
cm³ times the density in g/cm³, and the estimated cost is that mass
times the flat rate of 10 per gram — exactly two multiplications. -/
theorem claim2_two_multiplications (s : St)
    (hm : s.currentMesh ≠ none) (hv : 0 < s.modelVolumeCm3)
    (hn : s.matName ≠ "") (hd : 0 < s.matDensity) :
    (updateCostAndEmail s).costResult
      = CostMsg.quote s.modelVolumeCm3 s.matName s.matDensity
          (s.modelVolumeCm3 * s.matDensity)
          (s.modelVolumeCm3 * s.matDensity * 10) := by
  unfold updateCostAndEmail
  rw [if_neg (not_or.mpr ⟨hm, not_le.mpr hv⟩), if_neg (not_or.mpr ⟨hn, not_le.mpr hd⟩)]
  rfl

theorem claim2_witness :
    sampleSt.currentMesh ≠ none ∧ 0 < sampleSt.modelVolumeCm3
    ∧ sampleSt.matName ≠ "" ∧ 0 < sampleSt.matDensity
    ∧ (updateCostAndEmail sampleSt).costResult
        = CostMsg.quote (2 / 5) "PLA" (5 / 4) (1 / 2) 5 :=
  ⟨by decide, by norm_num [sampleSt], by decide, by norm_num [sampleSt],
   (claim2_two_multiplications sampleSt (by decide) (by norm_num [sampleSt]) (by decide)
       (by norm_num [sampleSt])).trans
     (by norm_num [sampleSt])⟩

theorem claim4_witness :
    (stepEv initialState (Ev.upload "bad.stl" 1024 LoadOutcome.parseFail)).fileInfo
        = "File:  - Load Error"
    ∧ (stepEv initialState (Ev.upload "bad.stl" 1024 LoadOutcome.parseFail)).emailHref = none :=
  ⟨(claim4_parse_error_resets initialState Reachable.init "bad.stl" 1024).1,
   (claim4_parse_error_resets initialState Reachable.init "bad.stl" 1024).2.2.2.2.2.1⟩

/-- C5: the rendering context is initialised exactly once, on the first
successful file load: in every reachable state `initThreeJS` has run at
most once, it has run exactly once iff the scene exists, once the scene
exists no event changes the identity of the scene, renderer, camera or
controls (and `initThreeJS` never runs again), and before the scene
exists a successful upload runs it exactly once. -/
theorem claim5_init_once (s : St) (h : Reachable s) :
    s.initCount ≤ 1
    ∧ (s.sceneLive = true ↔ s.initCount = 1)
    ∧ (s.sceneLive = true → ∀ e,
        (stepEv s e).sceneId = s.sceneId
        ∧ (stepEv s e).rendererId = s.rendererId
        ∧ (stepEv s e).cameraId = s.cameraId
        ∧ (stepEv s e).controlsId = s.controlsId
        ∧ (stepEv s e).initCount = s.initCount)
    ∧ (s.sceneLive = false → ∀ (name : String) (fsize : ℚ) (b : Box3),
        (stepEv s (Ev.upload name fsize (LoadOutcome.parsed b))).initCount = s.initCount + 1
        ∧ (stepEv s (Ev.upload name fsize (LoadOutcome.parsed b))).sceneLive = true) :=
  ⟨(reachable_good h).initLe, (reachable_good h).initIff,
   fun hl e => step_core s hl e,
   fun hlf name fsize b =>
     handleUpload_first s name fsize b (fun hh => Bool.noConfusion (hlf.symm.trans hh))⟩

theorem claim5_witness :
    initialState.initCount ≤ 1
    ∧ (initialState.sceneLive = true ↔ initialState.initCount = 1) :=
  ⟨(claim5_init_once initialState Reachable.init).1,
   (claim5_init_once initialState Reachable.init).2.1⟩

/-- C7: when a new file is selected while a model is displayed, the
`resetState()` call releases exactly one 3D object: the current mesh is
removed from the scene and its geometry and its material are disposed,
while the scene, renderer, camera and controls are left unchanged. -/
theorem claim7_dispose_one (s : St) (m : MeshObj)
    (hm : s.currentMesh = some m) (hl : s.sceneLive = true) :
    (resetState s).currentMesh = none
    ∧ (resetState s).sceneMeshes = s.sceneMeshes.erase m.meshId
    ∧ (resetState s).disposedGeoms = m.geomId :: s.disposedGeoms
    ∧ (resetState s).disposedMats = m.matId :: s.disposedMats
    ∧ (resetState s).sceneId = s.sceneId
    ∧ (resetState s).rendererId = s.rendererId
    ∧ (resetState s).cameraId = s.cameraId
    ∧ (resetState s).controlsId = s.controlsId := by
  unfold resetState
  simp [hm, if_pos hl]

theorem claim7_witness :
    (resetState sampleSt).currentMesh = none
    ∧ (resetState sampleSt).sceneMeshes = []
    ∧ (resetState sampleSt).disposedGeoms = [5]
    ∧ (resetState sampleSt).disposedMats = [6]
    ∧ (resetState sampleSt).rendererId = some 2 :=
  ⟨(claim7_dispose_one sampleSt ⟨4, 5, 6⟩ rfl rfl).1,
   (claim7_dispose_one sampleSt ⟨4, 5, 6⟩ rfl rfl).2.1.trans (by decide),
   (claim7_dispose_one sampleSt ⟨4, 5, 6⟩ rfl rfl).2.2.1,
   (claim7_dispose_one sampleSt ⟨4, 5, 6⟩ rfl rfl).2.2.2.1,
   (claim7_dispose_one sampleSt ⟨4, 5, 6⟩ rfl rfl).2.2.2.2.2.1⟩

/-- C8: whenever no mesh is loaded or the stored volume is not strictly
positive, `updateCostAndEmail` removes the email link's href, adds the
`disabled` class and clears the status text; and in every reachable
state an email href exists only if a model with positive estimated
volume is loaded. -/
theorem claim8_email_gating (s : St) (h : Reachable s) :
    ((s.currentMesh = none ∨ s.modelVolumeCm3 ≤ 0) →
        (updateCostAndEmail s).emailHref = none
        ∧ (updateCostAndEmail s).emailDisabled = true
        ∧ (updateCostAndEmail s).emailStatus = "")
    ∧ (s.emailHref.isSome = true → s.currentMesh.isSome = true ∧ 0 < s.modelVolumeCm3) := by
  constructor
  · intro hc
    unfold updateCostAndEmail
    rw [if_pos hc]
    exact ⟨rfl, rfl, rfl⟩
  · exact (reachable_good h).hrefOk

theorem claim8_witness :
    (updateCostAndEmail initialState).emailHref = none
    ∧ (updateCostAndEmail initialState).emailDisabled = true
    ∧ (updateCostAndEmail initialState).emailStatus = "" :=
  (claim8_email_gating initialState Reachable.init).1 (Or.inl rfl)

/-- C9: when the email link is built, the Color field is the string
"Not specified" if the color input trims to the empty string, and the
trimmed input value otherwise. -/
theorem claim9_color_default (s : St)
    (hm : s.currentMesh ≠ none) (hv : 0 < s.modelVolumeCm3)
    (hn : s.matName ≠ "") (hd : 0 < s.matDensity) :
    (updateCostAndEmail s).emailHref
      = some (mailtoHref s.loadedFileName
          (if jsTrim s.colorVal = "" then "Not specified" else jsTrim s.colorVal)
          s.matName s.modelVolumeCm3 (s.modelVolumeCm3 * s.matDensity)
          (s.modelVolumeCm3 * s.matDensity * 10)) := by
  unfold updateCostAndEmail
  rw [if_neg (not_or.mpr ⟨hm, not_le.mpr hv⟩), if_neg (not_or.mpr ⟨hn, not_le.mpr hd⟩)]
  rfl

theorem claim9_witness :
    jsTrim sampleSt.colorVal = "red"
    ∧ (updateCostAndEmail sampleSt).emailHref
        = some (mailtoHref sampleSt.loadedFileName
            (if jsTrim sampleSt.colorVal = "" then "Not specified" else jsTrim sampleSt.colorVal)
            sampleSt.matName sampleSt.modelVolumeCm3
            (sampleSt.modelVolumeCm3 * sampleSt.matDensity)
            (sampleSt.modelVolumeCm3 * sampleSt.matDensity * 10)) :=
  ⟨by decide,
   claim9_color_default sampleSt (by decide) (by norm_num [sampleSt]) (by decide)
     (by norm_num [sampleSt])⟩

/-- C10: `updateCostAndEmail` takes its "select a valid material" branch
— showing the prompt and disabling the email link instead of computing a
cost — iff the selected option's value is empty or its parsed density is
≤ 0; otherwise it proceeds to the mass and cost computation. -/
theorem claim10_material_guard (s : St)
    (hm : s.currentMesh ≠ none) (hv : 0 < s.modelVolumeCm3) :
    ((updateCostAndEmail s).costResult = CostMsg.needMaterial
        ↔ (s.matName = "" ∨ s.matDensity ≤ 0))
    ∧ ((s.matName = "" ∨ s.matDensity ≤ 0) →
        (updateCostAndEmail s).emailDisabled = true
        ∧ (updateCostAndEmail s).emailHref = none)
    ∧ (¬(s.matName = "" ∨ s.matDensity ≤ 0) →
        (updateCostAndEmail s).costResult
          = CostMsg.quote s.modelVolumeCm3 s.matName s.matDensity
              (s.modelVolumeCm3 * s.matDensity)
              (s.modelVolumeCm3 * s.matDensity * 10)) := by
  unfold updateCostAndEmail
  rw [if_neg (not_or.mpr ⟨hm, not_le.mpr hv⟩)]
  by_cases hc : s.matName = "" ∨ s.matDensity ≤ 0
  · rw [if_pos hc]
    exact ⟨iff_of_true rfl hc, fun _ => ⟨rfl, rfl⟩, fun hnc => absurd hc hnc⟩
  · rw [if_neg hc]
    exact ⟨iff_of_false (fun heq => CostMsg.noConfusion heq) hc,
           fun hcc => absurd hcc hc, fun _ => rfl⟩

theorem claim10_witness :
    ((updateCostAndEmail sampleSt).costResult = CostMsg.needMaterial
      ↔ (sampleSt.matName = "" ∨ sampleSt.matDensity ≤ 0)) :=
  (claim10_material_guard sampleSt (by decide) (by norm_num [sampleSt])).1

theorem updateCost_matName (s : St) :
    (updateCostAndEmail s).matName = s.matName := by
  obtain ⟨_, _, _, _, h⟩ := updateCost_frame s; rw [h]

theorem updateCost_matDensity (s : St) :
    (updateCostAndEmail s).matDensity = s.matDensity := by
  obtain ⟨_, _, _, _, h⟩ := updateCost_frame s; rw [h]

theorem updateCost_fname (s : St) :
    (updateCostAndEmail s).loadedFileName = s.loadedFileName := by
  obtain ⟨_, _, _, _, h⟩ := updateCost_frame s; rw [h]

theorem updateCost_colorVal (s : St) :
    (updateCostAndEmail s).colorVal = s.colorVal := by
  obtain ⟨_, _, _, _, h⟩ := updateCost_frame s; rw [h]

theorem updateCost_colorDisabled (s : St) :
    (updateCostAndEmail s).colorDisabled = s.colorDisabled := by
  obtain ⟨_, _, _, _, h⟩ := updateCost_frame s; rw [h]

theorem updateCost_matDisabled (s : St) :
    (updateCostAndEmail s).matDisabled = s.matDisabled := by
  obtain ⟨_, _, _, _, h⟩ := updateCost_frame s; rw [h]

theorem quote_emailHref (s : St)
    (hm : s.currentMesh ≠ none) (hv : 0 < s.modelVolumeCm3)
    (hn : s.matName ≠ "") (hd : 0 < s.matDensity) :
    (updateCostAndEmail s).emailHref
      = some (mailtoHref s.loadedFileName
          (if jsTrim s.colorVal = "" then "Not specified" else jsTrim s.colorVal)
          s.matName s.modelVolumeCm3 (s.modelVolumeCm3 * s.matDensity)
          (s.modelVolumeCm3 * s.matDensity * 10)) := by
  unfold updateCostAndEmail
  rw [if_neg (not_or.mpr ⟨hm, not_le.mpr hv⟩), if_neg (not_or.mpr ⟨hn, not_le.mpr hd⟩)]
  rfl

/-- Fields of the state after a successful load: the file name and color
are whatever the reset left, both inputs are enabled, the mesh exists,
and the volume is the bounding-box heuristic. -/
theorem loadSuccess_misc (s2 : St) (b : Box3) :
    (loadSuccess s2 b).loadedFileName = s2.loadedFileName
    ∧ (loadSuccess s2 b).colorVal = s2.colorVal
    ∧ (loadSuccess s2 b).colorDisabled = false
    ∧ (loadSuccess s2 b).matDisabled = false
    ∧ (loadSuccess s2 b).matName = s2.matName
    ∧ (loadSuccess s2 b).matDensity = s2.matDensity
    ∧ (loadSuccess s2 b).currentMesh.isSome = true
    ∧ (loadSuccess s2 b).modelVolumeCm3
        = b.getSize.x * b.getSize.y * b.getSize.z / 1000 * (0.4 : ℚ) := by
  unfold loadSuccess
  by_cases hl : s2.sceneLive = true
  · rw [if_pos hl]
    exact ⟨updateCost_fname _, updateCost_colorVal _, updateCost_colorDisabled _,
      updateCost_matDisabled _, updateCost_matName _, updateCost_matDensity _,
      by rw [updateCost_mesh]; rfl, updateCost_vol _⟩
  · rw [if_neg hl]
    exact ⟨updateCost_fname _, updateCost_colorVal _, updateCost_colorDisabled _,
      updateCost_matDisabled _, updateCost_matName _, updateCost_matDensity _,
      by rw [updateCost_mesh]; rfl, updateCost_vol _⟩

theorem demoBox_size : demoBox.getSize = ⟨10, 10, 10⟩ := by
  unfold demoBox Box3.getSize Box3.isEmpty
  norm_num

theorem demoUpload_facts :
    demoUpload.loadedFileName = ""
    ∧ demoUpload.colorVal = ""
    ∧ demoUpload.colorDisabled = false
    ∧ demoUpload.matDisabled = false
    ∧ demoUpload.currentMesh.isSome = true
    ∧ demoUpload.modelVolumeCm3 = 2 / 5 := by
  have hmisc := loadSuccess_misc (resetState (preUpload initialState "model.stl" 100)) demoBox
  have hclr := resetState_cleared (preUpload initialState "model.stl" 100)
  refine ⟨hmisc.1.trans hclr.2.1, hmisc.2.1.trans hclr.2.2.1, hmisc.2.2.1,
    hmisc.2.2.2.1, hmisc.2.2.2.2.2.2.1, hmisc.2.2.2.2.2.2.2.trans ?_⟩
  rw [demoBox_size]
  norm_num

theorem demoColored_eq :
    demoColored = updateCostAndEmail { demoUpload with colorVal := "red" } := by
  unfold demoColored
  simp only [stepEv, demoUpload_facts.2.2.1]
  rfl

theorem demoColored_facts :
    demoColored.loadedFileName = ""
    ∧ demoColored.colorVal = "red"
    ∧ demoColored.matDisabled = false
    ∧ demoColored.currentMesh.isSome = true
    ∧ demoColored.modelVolumeCm3 = 2 / 5 := by
  rw [demoColored_eq]
  refine ⟨(updateCost_fname _).trans demoUpload_facts.1,
    updateCost_colorVal _,
    (updateCost_matDisabled _).trans demoUpload_facts.2.2.2.1,
    ?_, (updateCost_vol _).trans demoUpload_facts.2.2.2.2.2⟩
  rw [updateCost_mesh]
  exact demoUpload_facts.2.2.2.2.1

theorem demoQuote_eq :
    demoQuote = updateCostAndEmail { demoColored with matName := "PLA", matDensity := 5 / 4 } := by
  unfold demoQuote
  simp only [stepEv, demoColored_facts.2.2.1]
  rfl

/-- C6: the email draft never contains the uploaded file's name.  The
handler stores `file.name` in `loadedFileName` (line 89) but the very
next call, `resetState()` (line 92), clears it back to the empty string
before the FileReader callback builds the mailto link, so the subject
and the two body fields that should carry "model.stl" carry "". -/
theorem claim6_filename_lost :
    demoQuote.loadedFileName = ""
    ∧ demoQuote.emailHref
        = some (mailtoHref "" "red" "PLA" (2 / 5) (1 / 2) 5)
    ∧ emailSubject "" = "3D Print Quote Request - " := by
  have hmesh : ({ demoColored with matName := "PLA", matDensity := 5 / 4 } : St).currentMesh ≠ none := by
    have := demoColored_facts.2.2.2.1
    intro hn
    rw [show ({ demoColored with matName := "PLA", matDensity := 5 / 4 } : St).currentMesh
          = demoColored.currentMesh from rfl] at hn
    rw [hn] at this
    exact Bool.noConfusion this
  have hvol : 0 < ({ demoColored with matName := "PLA", matDensity := 5 / 4 } : St).modelVolumeCm3 := by
    rw [show ({ demoColored with matName := "PLA", matDensity := 5 / 4 } : St).modelVolumeCm3
          = demoColored.modelVolumeCm3 from rfl, demoColored_facts.2.2.2.2]
    norm_num
  refine ⟨?_, ?_, rfl⟩
  · rw [demoQuote_eq, updateCost_fname]
    exact demoColored_facts.1
  · rw [demoQuote_eq,
      quote_emailHref _ hmesh hvol (by decide) (by norm_num)]
    rw [show ({ demoColored with matName := "PLA", matDensity := 5 / 4 } : St).loadedFileName
          = demoColored.loadedFileName from rfl, demoColored_facts.1]
    rw [show ({ demoColored with matName := "PLA", matDensity := 5 / 4 } : St).colorVal
          = demoColored.colorVal from rfl, demoColored_facts.2.1]
    rw [show ({ demoColored with matName := "PLA", matDensity := 5 / 4 } : St).modelVolumeCm3
          = demoColored.modelVolumeCm3 from rfl, demoColored_facts.2.2.2.2]
    rw [show jsTrim "red" = "red" from by decide,
        if_neg (show ¬ ("red" : String) = "" from by decide)]
    norm_num

end ThreeDQuote
